import Mathlib

/-!
Shallow embedding of the evaluation engine of the roast_my_cv repository
(file cv_processor.py, class CVProcessor, plus the best-model selection in
roast_my_cv_submission/process_new_cv.py).

Modelling conventions:
- Python strings become Lean String; lowercase conversion is modelled by
  mapping Char.toLower over the characters (the taxonomy trigger phrases
  are ASCII, where both agree).
- The Python substring test (kw in s) is modelled by containsSubstr.
- The regular expression search in _detect_cv_issues is modelled by a
  direct matcher over the character list (metricsMatchAt / hasMetricsPattern),
  alternative by alternative, searched at every position like re.search.
- Python float arithmetic on the metric ratios is modelled by exact
  rational arithmetic over Rat.
- Python sets become Finset String via List.toFinset; set cardinality is
  Finset.card.
- The pandas idxmax selection (first row attaining the maximal f1_score)
  is modelled by bestFrom / bestModelRow, a left fold that replaces the
  running best row only on a strictly larger f1_score.
-/

namespace RoastMyCv

/-- Lowercasing of a string, as used by the Python calls text.lower(). -/
def lowerStr (s : String) : String :=
  String.mk (s.data.map Char.toLower)

/-- needle occurs as a contiguous sublist of hay. -/
def containsSub (needle hay : List Char) : Bool :=
  hay.tails.any fun t => needle.isPrefixOf t

/-- The Python substring test: needle in hay. -/
def containsSubstr (hay needle : String) : Bool :=
  containsSub needle.data hay.data

/-- Word counting as by len(text.split()): the number of maximal runs of
non-whitespace characters.  The flag records whether we are inside a run. -/
def countWordsAux : Bool → List Char → Nat
  | _, [] => 0
  | inWord, c :: rest =>
    if c.isWhitespace then countWordsAux false rest
    else (if inWord then 0 else 1) + countWordsAux true rest

/-- len(cv_text.split()) from the source. -/
def wordCount (s : String) : Nat :=
  countWordsAux false s.data

/-- CVProcessor.EXPECTED_CV_ELEMENTS, in source order. -/
def EXPECTED_CV_ELEMENTS : List (String × List String) :=
  [("career_objective", ["career objective", "objective", "summary", "professional summary"]),
   ("skills", ["skills", "technical skills", "competencies", "expertise"]),
   ("education", ["education", "academic", "degree", "university", "college"]),
   ("experience", ["experience", "work history", "employment", "professional experience"]),
   ("contact", ["email", "phone", "address", "contact", "linkedin"]),
   ("achievements", ["achievement", "award", "accomplishment", "certification"]),
   ("projects", ["project", "portfolio"])]

/-- CVProcessor.COMMON_CV_ISSUES, in source (dict insertion) order. -/
def COMMON_CV_ISSUES : List (String × List String) :=
  [("typos", ["typo", "spelling", "grammar", "grammatical"]),
   ("vague_objective", ["vague", "generic", "unclear objective", "bland objective"]),
   ("skill_organization", ["organize skills", "categorize skills", "skill structure"]),
   ("no_metrics", ["quantif", "metric", "number", "measurable", "achievement"]),
   ("buzzwords", ["buzzword", "clichÃ©", "jargon", "overused"]),
   ("formatting", ["format", "layout", "structure", "consistency"]),
   ("length", ["too long", "too short", "concise", "verbose"]),
   ("relevance", ["relevant", "irrelevant", "focus"])]

/-- The identifiers of the fixed issue taxonomy, in source order. -/
def issueCategoryIds : List String :=
  COMMON_CV_ISSUES.map Prod.fst

/-- Lookup of a trigger list in EXPECTED_CV_ELEMENTS, as the Python dict
subscript EXPECTED_CV_ELEMENTS[name]. -/
def elementKeywords (name : String) : List String :=
  ((EXPECTED_CV_ELEMENTS.find? fun p => p.1 = name).map Prod.snd).getD []

/-- One or more digits, possibly interleaved before the final target
character: the continuation of matching a \d+ group followed by the
character c, after the first digit has been consumed. -/
def matchNumThenTail (c : Char) : List Char → Bool
  | [] => false
  | x :: xs => (x == c) || (x.isDigit && matchNumThenTail c xs)

/-- Match of a \d+ group followed by the character c at the start of cs. -/
def matchNumThen (c : Char) : List Char → Bool
  | [] => false
  | x :: xs => x.isDigit && matchNumThenTail c xs

/-- Match of the literal "improved " followed by \d+ at the start of cs. -/
def matchImprovedNum (cs : List Char) : Bool :=
  ("improved ".data).isPrefixOf cs &&
    (match cs.drop 9 with
     | [] => false
     | x :: _ => x.isDigit)

/-- One alternative of the regular expression
\d+%|\d+x|increased|reduced|improved \d+ matches at the start of cs. -/
def metricsMatchAt (cs : List Char) : Bool :=
  matchNumThen '%' cs || matchNumThen 'x' cs ||
    ("increased".data.isPrefixOf cs) || ("reduced".data.isPrefixOf cs) ||
    matchImprovedNum cs

/-- re.search of the metrics pattern over the raw cv_text (the source
searches the original text, not the lowered one). -/
def hasMetricsPattern (s : String) : Bool :=
  s.data.tails.any metricsMatchAt

/-- Rule for vague_objective in _detect_cv_issues. -/
def vagueObjectiveFlag (cv_text : String) : Bool :=
  let cv_lower := lowerStr cv_text
  (["seeking", "looking for", "opportunity"].any fun w => containsSubstr cv_lower w) &&
    !(["specific", "specialize", "expert in"].any fun w => containsSubstr cv_lower w)

/-- Rule for no_metrics in _detect_cv_issues. -/
def noMetricsFlag (cv_text : String) : Bool :=
  !(hasMetricsPattern cv_text)

/-- Rule for buzzwords in _detect_cv_issues: at least two of the fixed
buzzword list occur in the lowered text. -/
def buzzwordsFlag (cv_text : String) : Bool :=
  let cv_lower := lowerStr cv_text
  decide (2 ≤ (["synergy", "innovative", "dynamic", "results-driven",
                "team player", "hard worker"].countP
                 fun bw => containsSubstr cv_lower bw))

/-- Rule for length in _detect_cv_issues: the if / elif pair appends the
single label for either tail. -/
def lengthFlag (cv_text : String) : Bool :=
  decide (wordCount cv_text < 200) || decide (1000 < wordCount cv_text)

/-- Rule for formatting in _detect_cv_issues: a recognizable skills or
experience section is missing. -/
def formattingFlag (cv_text : String) : Bool :=
  let cv_lower := lowerStr cv_text
  !((elementKeywords "skills").any fun kw => containsSubstr cv_lower kw) ||
    !((elementKeywords "experience").any fun kw => containsSubstr cv_lower kw)

/-- CVProcessor._detect_cv_issues: the automatic ground-truth detector.
The list is assembled in the append order of the source. -/
def detectCvIssues (cv_text : String) : List String :=
  (if vagueObjectiveFlag cv_text then ["vague_objective"] else []) ++
  (if noMetricsFlag cv_text then ["no_metrics"] else []) ++
  (if buzzwordsFlag cv_text then ["buzzwords"] else []) ++
  (if lengthFlag cv_text then ["length"] else []) ++
  (if formattingFlag cv_text then ["formatting"] else [])

/-- The detected-issue scan of calculate_issue_detection_metrics: every
taxonomy category one of whose trigger phrases occurs in the lowered
critique, in taxonomy order. -/
def detectedIssues (critique : String) : List String :=
  let critique_lower := lowerStr critique
  (COMMON_CV_ISSUES.filter fun p => p.2.any fun kw => containsSubstr critique_lower kw).map
    Prod.fst

/-- Result record of calculate_issue_detection_metrics. -/
structure DetectionMetrics where
  precision : ℚ
  «recall» : ℚ
  f1_score : ℚ
  true_positives : Nat
  false_positives : Nat
  false_negatives : Nat
  ground_truth_issues : List String
  detected_issues : List String
  missed_issues : List String
  extra_mentions : List String
deriving DecidableEq

/-- CVProcessor.calculate_issue_detection_metrics.  A missing
ground_truth_issues argument (Python None) is the none case; the source
then falls back to _detect_cv_issues on the document text. -/
def calculateIssueDetectionMetrics (cv_text critique : String)
    (ground_truth : Option (List String)) : DetectionMetrics :=
  let ground_truth_issues := ground_truth.getD (detectCvIssues cv_text)
  let detected_issues := detectedIssues critique
  let gtS := ground_truth_issues.toFinset
  let dS := detected_issues.toFinset
  let tp := (gtS ∩ dS).card
  let fp := (dS \ gtS).card
  let fn := (gtS \ dS).card
  let precision : ℚ := if 0 < tp + fp then (tp : ℚ) / ((tp : ℚ) + (fp : ℚ)) else 0
  let «recall» : ℚ := if 0 < tp + fn then (tp : ℚ) / ((tp : ℚ) + (fn : ℚ)) else 0
  let f1_score : ℚ :=
    if 0 < precision + «recall» then 2 * (precision * «recall») / (precision + «recall») else 0
  { precision := precision
    «recall» := «recall»
    f1_score := f1_score
    true_positives := tp
    false_positives := fp
    false_negatives := fn
    ground_truth_issues := ground_truth_issues
    detected_issues := detected_issues
    missed_issues := ground_truth_issues.dedup.filter fun x => !(detected_issues.contains x)
    extra_mentions := detected_issues.dedup.filter fun x => !(ground_truth_issues.contains x) }

/-- Result record of calculate_section_coverage. -/
structure CoverageResult where
  total_sections_in_cv : Nat
  sections_addressed_in_critique : Nat
  coverage_rate : ℚ
  sections_present : List (String × Bool)
  sections_covered : List (String × Bool)
deriving DecidableEq

/-- CVProcessor.calculate_section_coverage. -/
def calculateSectionCoverage (cv_text critique : String) : CoverageResult :=
  let cv_lower := lowerStr cv_text
  let critique_lower := lowerStr critique
  let sections_present :=
    EXPECTED_CV_ELEMENTS.map fun p => (p.1, p.2.any fun kw => containsSubstr cv_lower kw)
  let sections_covered :=
    EXPECTED_CV_ELEMENTS.map fun p => (p.1, p.2.any fun kw => containsSubstr critique_lower kw)
  let total_sections := sections_present.countP fun q => q.2
  let covered_sections :=
    EXPECTED_CV_ELEMENTS.countP fun p =>
      (p.2.any fun kw => containsSubstr cv_lower kw) &&
        (p.2.any fun kw => containsSubstr critique_lower kw)
  let coverage_rate : ℚ :=
    if 0 < total_sections then (covered_sections : ℚ) / (total_sections : ℚ) else 0
  { total_sections_in_cv := total_sections
    sections_addressed_in_critique := covered_sections
    coverage_rate := coverage_rate
    sections_present := sections_present
    sections_covered := sections_covered }

/-- One row of the comparison table of evaluate_all_models. -/
structure ModelResult where
  model : String
  coverage_rate : ℚ
  sections_addressed : Nat
  precision : ℚ
  «recall» : ℚ
  f1_score : ℚ
  true_positives : Nat
  false_positives : Nat
  false_negatives : Nat
  critique_length : Nat
deriving DecidableEq

/-- CVProcessor.evaluate_all_models: one row per critique, in the
insertion order of the critiques mapping. -/
def evaluateAllModels (cv_text : String) (critiques : List (String × String))
    (ground_truth : Option (List String)) : List ModelResult :=
  critiques.map fun nc =>
    let coverage := calculateSectionCoverage cv_text nc.2
    let detection := calculateIssueDetectionMetrics cv_text nc.2 ground_truth
    { model := nc.1
      coverage_rate := coverage.coverage_rate
      sections_addressed := coverage.sections_addressed_in_critique
      precision := detection.precision
      «recall» := detection.«recall»
      f1_score := detection.f1_score
      true_positives := detection.true_positives
      false_positives := detection.false_positives
      false_negatives := detection.false_negatives
      critique_length := wordCount nc.2 }

/-- Left scan of the pandas idxmax selection in process_new_cv.py: the
running best row is replaced only when a later row has a strictly larger
f1_score, so the first row attaining the maximum is kept. -/
def bestFrom (best : ModelResult) : List ModelResult → ModelResult
  | [] => best
  | r :: rs => bestFrom (if best.f1_score < r.f1_score then r else best) rs

/-- Best-model selection over the comparison table, as
df_results.loc[df_results[f1_score].idxmax()] in process_new_cv.py.
Undefined (none) on an empty table, where idxmax would raise. -/
def bestModelRow : List ModelResult → Option ModelResult
  | [] => none
  | r :: rs => some (bestFrom r rs)

/-- The sample document of cv_processor.main (the Scenario A document of
the specification). -/
def scenarioA_document : String :=
  "\n        CAREER OBJECTIVE:\n        Seeking a challenging position in data science.\n\n        SKILLS:\n        Python, Machine Learning, Data Analysis\n\n        EDUCATION:\n        University of Example - B.Sc. Computer Science (2020)\n\n        WORK EXPERIENCE:\n        Data Analyst at Company XYZ (2020-Present)\n        - Analyzed data\n        - Created reports\n        - Worked with team\n        "

/-- The medium mock critique of cv_processor.main (the Scenario B critique
of the specification). -/
def scenarioB_critique : String :=
  "Missing quantifiable results. Experience section is too vague. Skills need organization."

/-- A document of n words, each the single letter w: input generator for
concrete word-count instances. -/
def repWords : Nat → List Char
  | 0 => []
  | n + 1 => 'w' :: ' ' :: repWords n

/-! Helper lemmas. -/

lemma mem_detectCvIssues (s i : String) :
    i ∈ detectCvIssues s ↔
      (vagueObjectiveFlag s = true ∧ i = "vague_objective") ∨
      (noMetricsFlag s = true ∧ i = "no_metrics") ∨
      (buzzwordsFlag s = true ∧ i = "buzzwords") ∨
      (lengthFlag s = true ∧ i = "length") ∨
      (formattingFlag s = true ∧ i = "formatting") := by
  unfold detectCvIssues
  cases h1 : vagueObjectiveFlag s <;> cases h2 : noMetricsFlag s <;>
    cases h3 : buzzwordsFlag s <;> cases h4 : lengthFlag s <;>
      cases h5 : formattingFlag s <;> simp

lemma detectedIssues_subset (c : String) : ∀ x ∈ detectedIssues c, x ∈ issueCategoryIds := by
  intro x hx
  simp only [detectedIssues] at hx
  rcases List.mem_map.mp hx with ⟨p, hp, rfl⟩
  exact List.mem_map.mpr ⟨p, (List.mem_filter.mp hp).1, rfl⟩

lemma contains_eq_false_of_not_mem {l : List String} {a : String} (h : a ∉ l) :
    l.contains a = false := by
  cases hc : l.contains a
  · rfl
  · exact absurd (List.elem_iff.mp hc) h

lemma wordCount_repWords (n : Nat) : wordCount (String.mk (repWords n)) = n := by
  have key : ∀ m : Nat, countWordsAux false (repWords m) = m := by
    intro m
    induction m with
    | zero => rfl
    | succ k ih =>
      have hw : ('w').isWhitespace = false := by decide
      have hs : (' ').isWhitespace = true := by decide
      simp [repWords, countWordsAux, hw, hs, ih]
      omega
  exact key n

lemma metrics_of_eq_sets (cv c : String) (gt : List String)
    (h1 : gt.toFinset.Nonempty) (h2 : (detectedIssues c).toFinset = gt.toFinset) :
    (calculateIssueDetectionMetrics cv c (some gt)).precision = 1 ∧
    (calculateIssueDetectionMetrics cv c (some gt)).«recall» = 1 ∧
    (calculateIssueDetectionMetrics cv c (some gt)).f1_score = 1 := by
  have hcard : 0 < gt.toFinset.card := Finset.card_pos.mpr h1
  have hq : (gt.toFinset.card : ℚ) ≠ 0 := Nat.cast_ne_zero.mpr hcard.ne'
  simp only [calculateIssueDetectionMetrics, Option.getD_some, h2, Finset.inter_self,
    Finset.sdiff_self, Finset.card_empty, Nat.add_zero, Nat.cast_zero, add_zero]
  have hone : (if 0 < gt.toFinset.card then (gt.toFinset.card : ℚ) / (gt.toFinset.card : ℚ)
      else 0) = 1 := by
    rw [if_pos hcard]
    exact div_self hq
  refine ⟨hone, hone, ?_⟩
  rw [hone]
  norm_num

lemma not_mem_detectCvIssues (s i : String)
    (h1 : i ≠ "vague_objective") (h2 : i ≠ "no_metrics") (h3 : i ≠ "buzzwords")
    (h4 : i ≠ "length") (h5 : i ≠ "formatting") : i ∉ detectCvIssues s := by
  intro hm
  rw [mem_detectCvIssues] at hm
  rcases hm with ⟨_, h⟩ | ⟨_, h⟩ | ⟨_, h⟩ | ⟨_, h⟩ | ⟨_, h⟩
  exacts [h1 h, h2 h, h3 h, h4 h, h5 h]

lemma bestFrom_spec (rs : List ModelResult) : ∀ b : ModelResult,
    (bestFrom b rs = b ∧ ∀ r ∈ rs, r.f1_score ≤ b.f1_score) ∨
    (∃ i, ∃ hi : i < rs.length, bestFrom b rs = rs.get ⟨i, hi⟩ ∧
      b.f1_score < (rs.get ⟨i, hi⟩).f1_score ∧
      (∀ r ∈ rs, r.f1_score ≤ (rs.get ⟨i, hi⟩).f1_score) ∧
      (∀ j, ∀ hj : j < rs.length, j < i →
        (rs.get ⟨j, hj⟩).f1_score < (rs.get ⟨i, hi⟩).f1_score)) := by
  induction rs with
  | nil =>
    intro b
    exact Or.inl ⟨rfl, by simp⟩
  | cons r rs ih =>
    intro b
    simp only [bestFrom]
    by_cases hbr : b.f1_score < r.f1_score
    · rw [if_pos hbr]
      rcases ih r with ⟨heq, hall⟩ | ⟨i, hi, heq, hlt, hall, hfirst⟩
      · right
        refine ⟨0, Nat.succ_pos _, ?_, ?_, ?_, ?_⟩
        · simpa using heq
        · simpa using hbr
        · intro x hx
          rcases List.mem_cons.mp hx with rfl | hx
          · simp
          · simpa using hall x hx
        · intro j hj hj0
          exact absurd hj0 (Nat.not_lt_zero j)
      · right
        refine ⟨i + 1, Nat.succ_lt_succ hi, ?_, ?_, ?_, ?_⟩
        · simpa using heq
        · simpa using lt_trans hbr hlt
        · intro x hx
          rcases List.mem_cons.mp hx with rfl | hx
          · simpa using le_of_lt hlt
          · simpa using hall x hx
        · intro j hj hji
          cases j with
          | zero => simpa using hlt
          | succ k =>
            have hk := hfirst k (Nat.lt_of_succ_lt_succ hj) (Nat.lt_of_succ_lt_succ hji)
            simpa using hk
    · rw [if_neg hbr]
      rcases ih b with ⟨heq, hall⟩ | ⟨i, hi, heq, hlt, hall, hfirst⟩
      · left
        refine ⟨heq, ?_⟩
        intro x hx
        rcases List.mem_cons.mp hx with rfl | hx
        · exact le_of_not_lt hbr
        · exact hall x hx
      · right
        refine ⟨i + 1, Nat.succ_lt_succ hi, ?_, ?_, ?_, ?_⟩
        · simpa using heq
        · simpa using hlt
        · intro x hx
          rcases List.mem_cons.mp hx with rfl | hx
          · simpa using le_trans (le_of_not_lt hbr) (le_of_lt hlt)
          · simpa using hall x hx
        · intro j hj hji
          cases j with
          | zero => simpa using lt_of_le_of_lt (le_of_not_lt hbr) hlt
          | succ k =>
            have hk := hfirst k (Nat.lt_of_succ_lt_succ hj) (Nat.lt_of_succ_lt_succ hji)
            simpa using hk

lemma bestModelRow_spec (rows : List ModelResult) (h : rows ≠ []) :
    ∃ i, ∃ hi : i < rows.length, bestModelRow rows = some (rows.get ⟨i, hi⟩) ∧
      (∀ r ∈ rows, r.f1_score ≤ (rows.get ⟨i, hi⟩).f1_score) ∧
      (∀ j, ∀ hj : j < rows.length, j < i →
        (rows.get ⟨j, hj⟩).f1_score < (rows.get ⟨i, hi⟩).f1_score) := by
  cases rows with
  | nil => exact absurd rfl h
  | cons r rs =>
    rcases bestFrom_spec rs r with ⟨heq, hall⟩ | ⟨i, hi, heq, hlt, hall, hfirst⟩
    · refine ⟨0, Nat.succ_pos _, ?_, ?_, ?_⟩
      · show some (bestFrom r rs) = _
        simp [heq]
      · intro x hx
        rcases List.mem_cons.mp hx with rfl | hx
        · simp
        · simpa using hall x hx
      · intro j hj hj0
        exact absurd hj0 (Nat.not_lt_zero j)
    · refine ⟨i + 1, Nat.succ_lt_succ hi, ?_, ?_, ?_⟩
      · show some (bestFrom r rs) = _
        simp [heq]
      · intro x hx
        rcases List.mem_cons.mp hx with rfl | hx
        · simpa using le_of_lt hlt
        · simpa using hall x hx
      · intro j hj hji
        cases j with
        | zero => simpa using hlt
        | succ k =>
          have hk := hfirst k (Nat.lt_of_succ_lt_succ hj) (Nat.lt_of_succ_lt_succ hji)
          simpa using hk

/-! Claim theorems. -/

/-- Claim C1, counterexample.  The claim asserts that for the Scenario A
document and the Scenario B critique, scoring against the supplied ground
truth (vague_objective, no_metrics) gives true_positives = 1, recall = 0.5
and f1 = 0.667.  In the code the trigger word vague also fires the
vague_objective category on this critique, so true_positives = 2 and
recall = 1: the three claimed values are all refuted below. -/
theorem c1_counterexample :
    (decide ((calculateIssueDetectionMetrics scenarioA_document scenarioB_critique
        (some ["vague_objective", "no_metrics"])).true_positives = 1)) = false ∧
    (decide ((calculateIssueDetectionMetrics scenarioA_document scenarioB_critique
        (some ["vague_objective", "no_metrics"])).«recall» = 1 / 2)) = false ∧
    (decide ((calculateIssueDetectionMetrics scenarioA_document scenarioB_critique
        (some ["vague_objective", "no_metrics"])).f1_score = 667 / 1000)) = false := by
  obtain ⟨hp, hr, hf⟩ := metrics_of_eq_sets scenarioA_document scenarioB_critique
    ["vague_objective", "no_metrics"] (by decide) (by decide)
  refine ⟨by decide, ?_, ?_⟩
  · apply decide_eq_false
    rw [hr]
    norm_num
  · apply decide_eq_false
    rw [hf]
    norm_num

/-- Claim C1, amended.  For the Scenario A document and the Scenario B
critique with ground truth (vague_objective, no_metrics), the detected set
is exactly (vague_objective, no_metrics): the word quantif fires
no_metrics and the word vague fires vague_objective.  Hence
true_positives = 2, precision = 1, recall = 1 and f1 = 1. -/
theorem c1_theorem :
    (calculateIssueDetectionMetrics scenarioA_document scenarioB_critique
        (some ["vague_objective", "no_metrics"])).detected_issues =
      ["vague_objective", "no_metrics"] ∧
    "no_metrics" ∈ (calculateIssueDetectionMetrics scenarioA_document scenarioB_critique
        (some ["vague_objective", "no_metrics"])).detected_issues ∧
    (calculateIssueDetectionMetrics scenarioA_document scenarioB_critique
        (some ["vague_objective", "no_metrics"])).true_positives = 2 ∧
    (calculateIssueDetectionMetrics scenarioA_document scenarioB_critique
        (some ["vague_objective", "no_metrics"])).precision = 1 ∧
    (calculateIssueDetectionMetrics scenarioA_document scenarioB_critique
        (some ["vague_objective", "no_metrics"])).«recall» = 1 ∧
    (calculateIssueDetectionMetrics scenarioA_document scenarioB_critique
        (some ["vague_objective", "no_metrics"])).f1_score = 1 := by
  obtain ⟨hp, hr, hf⟩ := metrics_of_eq_sets scenarioA_document scenarioB_critique
    ["vague_objective", "no_metrics"] (by decide) (by decide)
  exact ⟨by decide, by decide, by decide, hp, hr, hf⟩

/-- Claim C2, counterexample.  The claim asserts that a caller-supplied
ground-truth list holding an identifier outside the fixed taxonomy is
rejected with a validation error.  The code performs no validation: at the
concrete input below it silently computes a full metrics record, the
foreign identifier stays in the returned ground-truth set even though it
is not a taxonomy identifier, and it is counted as a false negative. -/
theorem c2_counterexample :
    (calculateIssueDetectionMetrics "" "" (some ["bogus_category"])).ground_truth_issues =
      ["bogus_category"] ∧
    (issueCategoryIds.contains "bogus_category") = false ∧
    (calculateIssueDetectionMetrics "" "" (some ["bogus_category"])).false_negatives = 1 ∧
    (calculateIssueDetectionMetrics "" "" (some ["bogus_category"])).«recall» = 0 := by
  refine ⟨by decide, by decide, by decide, ?_⟩
  have h1 : (((["bogus_category"] : List String).toFinset ∩
      (detectedIssues "").toFinset)).card = 0 := by decide
  have h2 : (((["bogus_category"] : List String).toFinset \
      (detectedIssues "").toFinset)).card = 1 := by decide
  simp only [calculateIssueDetectionMetrics, Option.getD_some, h1, h2]
  norm_num

/-- Claim C2, amended.  scoreIssueDetection performs no validation of
caller-supplied ground truth: for every ground-truth list containing an
identifier outside the fixed taxonomy it still computes metrics, the
foreign identifier is kept in the returned ground-truth set, it can never
occur in the detected set (which always draws from the taxonomy), and it
contributes at least one false negative. -/
theorem c2_theorem (cv c : String) (gt : List String) (x : String)
    (hx : x ∈ gt) (hk : x ∉ issueCategoryIds) :
    (calculateIssueDetectionMetrics cv c (some gt)).ground_truth_issues = gt ∧
    ((calculateIssueDetectionMetrics cv c (some gt)).detected_issues.contains x) = false ∧
    1 ≤ (calculateIssueDetectionMetrics cv c (some gt)).false_negatives := by
  have hd : x ∉ detectedIssues c := fun hm => hk (detectedIssues_subset c x hm)
  refine ⟨rfl, contains_eq_false_of_not_mem hd, ?_⟩
  show 1 ≤ (gt.toFinset \ (detectedIssues c).toFinset).card
  have hmem : x ∈ gt.toFinset \ (detectedIssues c).toFinset :=
    Finset.mem_sdiff.mpr ⟨List.mem_toFinset.mpr hx, fun hxd => hd (List.mem_toFinset.mp hxd)⟩
  exact Finset.card_pos.mpr ⟨x, hmem⟩

/-- Witness for C2 at the concrete input cv = "", critique = "",
ground truth = [bogus]. -/
theorem c2_witness :
    ("bogus" ∈ (["bogus"] : List String)) ∧
    (issueCategoryIds.contains "bogus") = false ∧
    (calculateIssueDetectionMetrics "" "" (some ["bogus"])).ground_truth_issues = ["bogus"] ∧
    ((calculateIssueDetectionMetrics "" "" (some ["bogus"])).detected_issues.contains "bogus") =
      false ∧
    1 ≤ (calculateIssueDetectionMetrics "" "" (some ["bogus"])).false_negatives :=
  ⟨by decide, by decide,
   ( c2_theorem "" "" ["bogus"] "bogus" (by decide) (by decide)).1,
   ( c2_theorem "" "" ["bogus"] "bogus" (by decide) (by decide)).2.1,
   ( c2_theorem "" "" ["bogus"] "bogus" (by decide) (by decide)).2.2⟩

/-- Claim C3: for every document text, the automatic detector emits
no_metrics exactly when the text contains no occurrence of the metrics
pattern (a percentage, a digit multiplier, the words increased or
reduced, or improved followed by a number), i.e. exactly when
hasMetricsPattern is false. -/
theorem c3_theorem (s : String) :
    "no_metrics" ∈ detectCvIssues s ↔ hasMetricsPattern s = false := by
  rw [mem_detectCvIssues]
  simp [noMetricsFlag]

/-- Claim C4: coverage_rate and the three detection metrics follow their
ratio definitions with an explicit zero default on a zero denominator; in
the rational model every metric is a total function of the inputs, so no
division error or undefined value can arise. -/
theorem c4_theorem :
    (∀ cv c : String,
      (calculateSectionCoverage cv c).coverage_rate =
        if 0 < (calculateSectionCoverage cv c).total_sections_in_cv then
          ((calculateSectionCoverage cv c).sections_addressed_in_critique : ℚ) /
            ((calculateSectionCoverage cv c).total_sections_in_cv : ℚ)
        else 0) ∧
    (∀ cv c : String, ∀ g : Option (List String),
      (calculateIssueDetectionMetrics cv c g).precision =
        (if 0 < (calculateIssueDetectionMetrics cv c g).true_positives +
            (calculateIssueDetectionMetrics cv c g).false_positives then
          ((calculateIssueDetectionMetrics cv c g).true_positives : ℚ) /
            (((calculateIssueDetectionMetrics cv c g).true_positives : ℚ) +
              ((calculateIssueDetectionMetrics cv c g).false_positives : ℚ))
        else 0) ∧
      (calculateIssueDetectionMetrics cv c g).«recall» =
        (if 0 < (calculateIssueDetectionMetrics cv c g).true_positives +
            (calculateIssueDetectionMetrics cv c g).false_negatives then
          ((calculateIssueDetectionMetrics cv c g).true_positives : ℚ) /
            (((calculateIssueDetectionMetrics cv c g).true_positives : ℚ) +
              ((calculateIssueDetectionMetrics cv c g).false_negatives : ℚ))
        else 0) ∧
      (calculateIssueDetectionMetrics cv c g).f1_score =
        (if 0 < (calculateIssueDetectionMetrics cv c g).precision +
            (calculateIssueDetectionMetrics cv c g).«recall» then
          2 * ((calculateIssueDetectionMetrics cv c g).precision *
              (calculateIssueDetectionMetrics cv c g).«recall») /
            ((calculateIssueDetectionMetrics cv c g).precision +
              (calculateIssueDetectionMetrics cv c g).«recall»)
        else 0)) := by
  constructor
  · intro cv c
    rfl
  · intro cv c g
    exact ⟨rfl, rfl, rfl⟩

/-- Claim C5: the confusion counts always satisfy
true_positives + false_negatives = card of the ground-truth set and
true_positives + false_positives = card of the detected set. -/
theorem c5_theorem (cv c : String) (g : Option (List String)) :
    (calculateIssueDetectionMetrics cv c g).true_positives +
        (calculateIssueDetectionMetrics cv c g).false_negatives =
      (calculateIssueDetectionMetrics cv c g).ground_truth_issues.toFinset.card ∧
    (calculateIssueDetectionMetrics cv c g).true_positives +
        (calculateIssueDetectionMetrics cv c g).false_positives =
      (calculateIssueDetectionMetrics cv c g).detected_issues.toFinset.card := by
  constructor
  · exact Finset.card_inter_add_card_sdiff
      ((g.getD (detectCvIssues cv)).toFinset) ((detectedIssues c).toFinset)
  · have h2 := Finset.card_inter_add_card_sdiff
      ((detectedIssues c).toFinset) ((g.getD (detectCvIssues cv)).toFinset)
    rw [Finset.inter_comm] at h2
    exact h2

/-- Claim C6: the automatic ground-truth detector only ever emits labels
from the five rule-backed categories; typos, skill_organization and
relevance never appear in an auto-derived ground-truth set. -/
theorem c6_theorem (s : String) :
    ((detectCvIssues s).all fun i =>
      (["vague_objective", "no_metrics", "buzzwords", "length",
        "formatting"].contains i)) = true ∧
    ((detectCvIssues s).contains "typos") = false ∧
    ((detectCvIssues s).contains "skill_organization") = false ∧
    ((detectCvIssues s).contains "relevance") = false := by
  refine ⟨?_, ?_, ?_, ?_⟩
  · rw [List.all_eq_true]
    intro i hi
    rw [mem_detectCvIssues] at hi
    rcases hi with ⟨_, rfl⟩ | ⟨_, rfl⟩ | ⟨_, rfl⟩ | ⟨_, rfl⟩ | ⟨_, rfl⟩ <;> decide
  · exact contains_eq_false_of_not_mem
      (not_mem_detectCvIssues s _ (by decide) (by decide) (by decide) (by decide) (by decide))
  · exact contains_eq_false_of_not_mem
      (not_mem_detectCvIssues s _ (by decide) (by decide) (by decide) (by decide) (by decide))
  · exact contains_eq_false_of_not_mem
      (not_mem_detectCvIssues s _ (by decide) (by decide) (by decide) (by decide) (by decide))

/-- Claim C7: the automatic detector emits length exactly when the word
count is below 200 or above 1000; in particular any 50-word document and
any 1500-word document get length, and any 500-word document does not. -/
theorem c7_theorem :
    (∀ s : String, "length" ∈ detectCvIssues s ↔
      (wordCount s < 200 ∨ 1000 < wordCount s)) ∧
    (∀ s : String, wordCount s = 50 → "length" ∈ detectCvIssues s) ∧
    (∀ s : String, wordCount s = 1500 → "length" ∈ detectCvIssues s) ∧
    (∀ s : String, wordCount s = 500 → ((detectCvIssues s).contains "length") = false) := by
  have hiff : ∀ s : String, "length" ∈ detectCvIssues s ↔
      (wordCount s < 200 ∨ 1000 < wordCount s) := by
    intro s
    rw [mem_detectCvIssues]
    simp [lengthFlag]
  refine ⟨hiff, ?_, ?_, ?_⟩
  · intro s h
    exact (hiff s).mpr (Or.inl (by omega))
  · intro s h
    exact (hiff s).mpr (Or.inr (by omega))
  · intro s h
    refine contains_eq_false_of_not_mem ?_
    intro hm
    rcases (hiff s).mp hm with hlt | hgt <;> omega

/-- Witness for C7 at concrete documents of 50, 1500 and 500 words. -/
theorem c7_witness :
    wordCount (String.mk (repWords 50)) = 50 ∧
    "length" ∈ detectCvIssues (String.mk (repWords 50)) ∧
    wordCount (String.mk (repWords 1500)) = 1500 ∧
    "length" ∈ detectCvIssues (String.mk (repWords 1500)) ∧
    wordCount (String.mk (repWords 500)) = 500 ∧
    ((detectCvIssues (String.mk (repWords 500))).contains "length") = false :=
  ⟨wordCount_repWords 50,
   c7_theorem.2.1 _ (wordCount_repWords 50),
   wordCount_repWords 1500,
   c7_theorem.2.2.1 _ (wordCount_repWords 1500),
   wordCount_repWords 500,
   c7_theorem.2.2.2 _ (wordCount_repWords 500)⟩

/-- Claim C8: when the detected set computed from the critique equals the
supplied nonempty ground-truth set, precision, recall and f1 are all 1. -/
theorem c8_theorem (cv c : String) (gt : List String)
    (h1 : gt.toFinset.Nonempty) (h2 : (detectedIssues c).toFinset = gt.toFinset) :
    (calculateIssueDetectionMetrics cv c (some gt)).precision = 1 ∧
    (calculateIssueDetectionMetrics cv c (some gt)).«recall» = 1 ∧
    (calculateIssueDetectionMetrics cv c (some gt)).f1_score = 1 :=
  metrics_of_eq_sets cv c gt h1 h2

/-- Witness for C8: the critique vague detects exactly the category
vague_objective, equal to the supplied ground truth. -/
theorem c8_witness :
    ((["vague_objective"] : List String).toFinset.Nonempty) ∧
    ((detectedIssues "vague").toFinset = (["vague_objective"] : List String).toFinset) ∧
    (calculateIssueDetectionMetrics "" "vague" (some ["vague_objective"])).precision = 1 ∧
    (calculateIssueDetectionMetrics "" "vague" (some ["vague_objective"])).«recall» = 1 ∧
    (calculateIssueDetectionMetrics "" "vague" (some ["vague_objective"])).f1_score = 1 :=
  ⟨by decide, by decide,
   ( c8_theorem "" "vague" ["vague_objective"] (by decide) (by decide)).1,
   ( c8_theorem "" "vague" ["vague_objective"] (by decide) (by decide)).2.1,
   ( c8_theorem "" "vague" ["vague_objective"] (by decide) (by decide)).2.2⟩

/-- Claim C9: for every nonempty critique collection, the best-model
selection returns the first row of the evaluation table whose f1_score is
maximal: every row has an f1_score no larger, and every strictly earlier
row has a strictly smaller f1_score. -/
theorem c9_theorem (cv : String) (critiques : List (String × String))
    (g : Option (List String)) (h : critiques ≠ []) :
    ∃ i, ∃ hi : i < (evaluateAllModels cv critiques g).length,
      bestModelRow (evaluateAllModels cv critiques g) =
        some ((evaluateAllModels cv critiques g).get ⟨i, hi⟩) ∧
      (∀ r ∈ evaluateAllModels cv critiques g,
        r.f1_score ≤ ((evaluateAllModels cv critiques g).get ⟨i, hi⟩).f1_score) ∧
      (∀ j, ∀ hj : j < (evaluateAllModels cv critiques g).length, j < i →
        ((evaluateAllModels cv critiques g).get ⟨j, hj⟩).f1_score <
          ((evaluateAllModels cv critiques g).get ⟨i, hi⟩).f1_score) := by
  apply bestModelRow_spec
  intro hnil
  apply h
  have hlen : critiques.length = 0 := by
    simpa [evaluateAllModels] using congrArg List.length hnil
  exact List.length_eq_zero.mp hlen

/-- Witness for C9 at the one-critique table built from the empty document
and the empty gentle critique. -/
theorem c9_witness :
    ∃ i, ∃ hi : i < (evaluateAllModels "" [("gentle", "")] none).length,
      bestModelRow (evaluateAllModels "" [("gentle", "")] none) =
        some ((evaluateAllModels "" [("gentle", "")] none).get ⟨i, hi⟩) ∧
      (∀ r ∈ evaluateAllModels "" [("gentle", "")] none,
        r.f1_score ≤ ((evaluateAllModels "" [("gentle", "")] none).get ⟨i, hi⟩).f1_score) ∧
      (∀ j, ∀ hj : j < (evaluateAllModels "" [("gentle", "")] none).length, j < i →
        ((evaluateAllModels "" [("gentle", "")] none).get ⟨j, hj⟩).f1_score <
          ((evaluateAllModels "" [("gentle", "")] none).get ⟨i, hi⟩).f1_score) :=
  c9_theorem "" [("gentle", "")] none (by simp)

/-- Claim C10: when the caller supplies the ground truth explicitly, the
metrics do not depend on the document text at all: the result is the same
for any two documents. -/
theorem c10_theorem (d1 d2 c : String) (gt : List String) :
    calculateIssueDetectionMetrics d1 c (some gt) =
      calculateIssueDetectionMetrics d2 c (some gt) := rfl

end RoastMyCv
